import Mathlib

/-!
Verification of the ROS2 image-recorder tool (`ImageRecorder.py`).

The program subscribes to an image topic, appends each decoded frame to an
in-memory list while a recording flag is set, and on keyboard interrupt
encodes the buffered frames into an MP4 file.  The development below is a
shallow embedding of that program: external collaborators (the ROS transport,
`cv_bridge`, `cv2`, `time.strftime`) are modelled by explicit data, and the
recorder's own code is translated function by function.
-/

/-- One decoded OpenCV image (`cv_image` in the source): pixel dimensions plus
abstract pixel content.  `cv_bridge` guarantees 3-channel 8-bit BGR data; the
content is abstracted to a list of sample values since the recorder never
inspects it. -/
structure Frame where
  height : Nat
  width : Nat
  data : List Nat
deriving DecidableEq, Repr

/-- One wire-format ROS `sensor_msgs/Image` message.  The external decoder
`cv_bridge.imgmsg_to_cv2` either yields a frame or raises; we carry that
outcome as the message's abstract decodability. -/
structure ImageMsg where
  decoded : Option Frame
deriving DecidableEq, Repr

/-- Model of the external `CvBridge.imgmsg_to_cv2` call with
`desired_encoding='bgr8'`: returns the decoded frame, or fails (raises) when
the message is not validly decodable. -/
def imgmsg_to_cv2 (msg : ImageMsg) : Option Frame :=
  msg.decoded

/-- Severity of a log line emitted through `self.get_logger()`. -/
inductive LogLevel where
  | info
  | error
deriving DecidableEq, Repr

/-- One emitted log line. -/
structure LogEntry where
  level : LogLevel
  text : String
deriving DecidableEq, Repr

/-- The output artifact produced by `cv2.VideoWriter`: target path, four
character codec code, frame rate, frame size passed to the writer, and the
exact sequence of frames written before `release()`. -/
structure VideoFile where
  path : String
  fourcc : String
  fps : Int
  width : Nat
  height : Nat
  writtenFrames : List Frame
deriving DecidableEq, Repr

/-- The mutable state of the `ImageRecorder` node: the constructor arguments
stored in `__init__` plus the frame buffer and the recording flag. -/
structure ImageRecorder where
  topic_name : String
  fps : Int
  output_filename : Option String
  frames : List Frame
  recording : Bool
deriving DecidableEq, Repr

/-- Result of one `save_video` invocation: the state after the call, the file
written (if any), and the log lines emitted. -/
structure SaveResult where
  state : ImageRecorder
  video : Option VideoFile
  logs : List LogEntry
deriving DecidableEq, Repr

/-- Broken-down local time as observed by `time.strftime`: the fields the
format string `%Y%m%d-%H%M%S` reads. -/
structure LocalTime where
  year : Nat
  month : Nat
  day : Nat
  hour : Nat
  minute : Nat
  second : Nat
deriving DecidableEq, Repr

/-- Field ranges `time.localtime` can actually produce (second 60 allows for
leap seconds, as in C `strftime`), with the year in the four-digit range that
`%Y` zero-pads. -/
def LocalTime.Valid (t : LocalTime) : Prop :=
  t.year < 10000 ∧ 1 ≤ t.month ∧ t.month ≤ 12 ∧ 1 ≤ t.day ∧ t.day ≤ 31 ∧
    t.hour < 24 ∧ t.minute < 60 ∧ t.second ≤ 60

instance (t : LocalTime) : Decidable t.Valid := by
  unfold LocalTime.Valid
  infer_instance

/-- Two decimal digits of `n`, zero padded (`%m`, `%d`, `%H`, `%M`, `%S`). -/
def pad2 (n : Nat) : List Char :=
  [Nat.digitChar (n / 10 % 10), Nat.digitChar (n % 10)]

/-- Four decimal digits of `n`, zero padded (`%Y` for four-digit years). -/
def pad4 (n : Nat) : List Char :=
  [Nat.digitChar (n / 1000 % 10), Nat.digitChar (n / 100 % 10),
   Nat.digitChar (n / 10 % 10), Nat.digitChar (n % 10)]

/-- Model of the external call `time.strftime("%Y%m%d-%H%M%S")` applied to
the broken-down local time `t`. -/
def strftime_YmdHMS (t : LocalTime) : String :=
  String.mk (pad4 t.year ++ pad2 t.month ++ pad2 t.day ++ [Char.ofNat 45] ++
    pad2 t.hour ++ pad2 t.minute ++ pad2 t.second)

/-- Python truthiness of the optional `output_filename` attribute, as tested
by `if self.output_filename:`: `None` and the empty string are falsy. -/
def pyTruthy : Option String → Bool
  | none => false
  | some s => !(s == "")

/-- Parsed command line, as produced by `parse_args`. -/
structure Args where
  topic : String
  fps : Int
  output : Option String
deriving DecidableEq, Repr

/-- Translation of `parse_args`: `argparse` substitutes the defaults for
omitted flags, converts `--fps` with `int(...)` (any integer accepted, no
range check), and leaves `--output` absent when not given. -/
def parse_args (topicArg : Option String) (fpsArg : Option Int)
    (outputArg : Option String) : Args :=
  { topic := topicArg.getD "/sensing/camera/traffic_light/image_raw"
    fps := fpsArg.getD 8
    output := outputArg }

/-- Translation of `ImageRecorder.__init__`: stores the three parameters and
starts with an empty frame list and the recording flag set.  The subscription
setup and the three informational log lines have no further observable
effect on the modelled state. -/
def ImageRecorder.init (topic_name : String) (fps : Int)
    (output_filename : Option String) : ImageRecorder :=
  { topic_name := topic_name
    fps := fps
    output_filename := output_filename
    frames := []
    recording := true }

/-- Translation of `ImageRecorder.image_callback`: when the recording flag is
clear the message is dropped; otherwise the message is decoded and the frame
appended.  A decode failure raises out of the callback (`Except.error`),
leaving the state untouched. -/
def ImageRecorder.image_callback (self : ImageRecorder) (msg : ImageMsg) :
    Except Unit ImageRecorder :=
  if !self.recording then
    Except.ok self
  else
    match imgmsg_to_cv2 msg with
    | none => Except.error ()
    | some cv_image => Except.ok { self with frames := self.frames ++ [cv_image] }

/-- Translation of `ImageRecorder.save_video`.  On an empty buffer it logs
an error and returns without touching anything.  Otherwise it takes the
dimensions from the first frame, resolves the output path (explicit truthy
filename, `.mp4`-suffixed when missing; else a timestamp-derived name from
the current local time `now`), opens a `VideoWriter` with the `mp4v` codec,
writes every buffered frame in order, releases the writer, logs the path and
clears the buffer. -/
def ImageRecorder.save_video (self : ImageRecorder) (now : LocalTime) :
    SaveResult :=
  match self.frames with
  | [] =>
    { state := self
      video := none
      logs := [{ level := LogLevel.error, text := "No frames recorded!" }] }
  | first :: _ =>
    let height := first.height
    let width := first.width
    let output_path :=
      if pyTruthy self.output_filename then
        let name := self.output_filename.getD ""
        if name.endsWith ".mp4" then name else name ++ ".mp4"
      else
        "camera_record_" ++ strftime_YmdHMS now ++ ".mp4"
    { state := { self with frames := [] }
      video := some
        { path := output_path
          fourcc := "mp4v"
          fps := self.fps
          width := width
          height := height
          writtenFrames := self.frames }
      logs := [{ level := LogLevel.info, text := "Video saved to " ++ output_path }] }

/-- The `rclpy.spin` phase of `main`: the transport delivers the messages in
order, each one dispatched to `image_callback`.  An exception escaping a
callback aborts that invocation only; the loop continues with the state
unchanged. -/
def spin (r : ImageRecorder) : List ImageMsg → ImageRecorder
  | [] => r
  | m :: ms =>
    match r.image_callback m with
    | Except.ok r2 => spin r2 ms
    | Except.error _ => spin r ms

/-- Outcome of a whole `main` run: final node state, the file written (if
any), the log lines of the shutdown path, and the process exit status. -/
structure MainResult where
  finalState : ImageRecorder
  video : Option VideoFile
  logs : List LogEntry
  exitCode : Nat
deriving DecidableEq, Repr

/-- Translation of the `except KeyboardInterrupt` handler in `main`: log the
stop message, clear the recording flag, call `save_video` once, then fall
through the `finally` block and exit with status 0. -/
def main_interrupt (r : ImageRecorder) (now : LocalTime) : MainResult :=
  let stopped : ImageRecorder := { r with recording := false }
  let sr := stopped.save_video now
  { finalState := sr.state
    video := sr.video
    logs := { level := LogLevel.info,
              text := "Stopping recording and saving video..." } :: sr.logs
    exitCode := 0 }

/-- Translation of `main`: parse the command line, construct the recorder,
spin over the delivered messages until the keyboard interrupt arrives, then
run the interrupt handler at local time `now`. -/
def runMain (topicArg : Option String) (fpsArg : Option Int)
    (outputArg : Option String) (msgs : List ImageMsg) (now : LocalTime) :
    MainResult :=
  let cli := parse_args topicArg fpsArg outputArg
  let recorder := ImageRecorder.init cli.topic cli.fps cli.output
  main_interrupt (spin recorder msgs) now

/-- The transitions the program can actually perform on a recorder state:
a message delivery dispatched to the callback (successful or aborted by a
decode failure), the interrupt handler clearing the recording flag, and the
save routine, which `main` only ever invokes after the flag is cleared. -/
inductive Step : ImageRecorder → ImageRecorder → Prop where
  | deliver (r r2 : ImageRecorder) (msg : ImageMsg)
      (h : r.image_callback msg = Except.ok r2) : Step r r2
  | deliverFail (r : ImageRecorder) (msg : ImageMsg)
      (h : r.image_callback msg = Except.error ()) : Step r r
  | interruptStop (r : ImageRecorder) : Step r { r with recording := false }
  | save (r : ImageRecorder) (now : LocalTime)
      (h : r.recording = false) : Step r (r.save_video now).state

/-! ### Helper lemmas -/

/-- `Nat.digitChar` is injective on decimal digits. -/
theorem digitChar_inj_lt10 :
    ∀ a < 10, ∀ b < 10, Nat.digitChar a = Nat.digitChar b → a = b := by
  decide

/-- A successful delivery while recording appends exactly the decoded frame. -/
theorem image_callback_recording (r : ImageRecorder) (msg : ImageMsg) (f : Frame)
    (hr : r.recording = true) (hd : imgmsg_to_cv2 msg = some f) :
    r.image_callback msg = Except.ok { r with frames := r.frames ++ [f] } := by
  simp [ImageRecorder.image_callback, hr, hd]

/-- Spinning over decodable messages while recording appends their decoded
frames, in delivery order, and changes nothing else. -/
theorem spin_recording_frames (msgs : List ImageMsg) (r : ImageRecorder)
    (hr : r.recording = true) (hdec : ∀ m ∈ msgs, (imgmsg_to_cv2 m).isSome) :
    spin r msgs = { r with frames := r.frames ++ msgs.filterMap imgmsg_to_cv2 } := by
  induction msgs generalizing r with
  | nil => simp [spin]
  | cons m ms ih =>
    obtain ⟨f, hf⟩ := Option.isSome_iff_exists.mp (hdec m (by simp))
    have hcb := image_callback_recording r m f hr hf
    simp only [spin, hcb]
    rw [ih { r with frames := r.frames ++ [f] } hr
      (fun x hx => hdec x (List.mem_cons_of_mem m hx))]
    simp [List.filterMap_cons, hf]

/-- Saving with an empty buffer only logs the error. -/
theorem save_video_empty_buffer (r : ImageRecorder) (now : LocalTime)
    (h : r.frames = []) :
    r.save_video now =
      { state := r
        video := none
        logs := [{ level := LogLevel.error, text := "No frames recorded!" }] } := by
  simp [ImageRecorder.save_video, h]

/-- Saving with a non-empty buffer clears the frame list and nothing else. -/
theorem save_video_state_clears (r : ImageRecorder) (now : LocalTime)
    (h : r.frames ≠ []) :
    (r.save_video now).state = { r with frames := [] } := by
  match hf : r.frames with
  | [] => exact absurd hf h
  | first :: rest => simp [ImageRecorder.save_video, hf]

/-- Saving with a non-empty buffer writes exactly the buffered frames. -/
theorem save_video_writes_frames (r : ImageRecorder) (now : LocalTime)
    (h : r.frames ≠ []) :
    Option.map VideoFile.writtenFrames (r.save_video now).video = some r.frames := by
  match hf : r.frames with
  | [] => exact absurd hf h
  | first :: rest => simp [ImageRecorder.save_video, hf]

/-- Saving with a non-empty buffer records the configured frame rate. -/
theorem save_video_fps (r : ImageRecorder) (now : LocalTime)
    (h : r.frames ≠ []) :
    Option.map VideoFile.fps (r.save_video now).video = some r.fps := by
  match hf : r.frames with
  | [] => exact absurd hf h
  | first :: rest => simp [ImageRecorder.save_video, hf]

/-- Saving with a non-empty buffer and no truthy explicit filename derives
the path from the timestamp. -/
theorem save_video_timestamp_path (r : ImageRecorder) (now : LocalTime)
    (h : r.frames ≠ []) (hn : pyTruthy r.output_filename = false) :
    Option.map VideoFile.path (r.save_video now).video
      = some ("camera_record_" ++ strftime_YmdHMS now ++ ".mp4") := by
  match hf : r.frames with
  | [] => exact absurd hf h
  | first :: rest => simp [ImageRecorder.save_video, hf, hn]

/-- Saving with a non-empty buffer and a truthy explicit filename uses it,
with the `.mp4` suffix appended when missing. -/
theorem save_video_explicit_path (r : ImageRecorder) (now : LocalTime)
    (name : String) (h : r.frames ≠ []) (hn : r.output_filename = some name)
    (hne : name ≠ "") :
    Option.map VideoFile.path (r.save_video now).video
      = some (if name.endsWith ".mp4" then name else name ++ ".mp4") := by
  have ht : pyTruthy (some name) = true := by
    simp [pyTruthy, hne]
  match hf : r.frames with
  | [] => exact absurd hf h
  | first :: rest => simp [ImageRecorder.save_video, hf, hn, ht]

/-- When every message decodes, the number of decoded frames equals the
number of delivered messages. -/
theorem length_filterMap_decode (msgs : List ImageMsg)
    (h : ∀ m ∈ msgs, (imgmsg_to_cv2 m).isSome) :
    (msgs.filterMap imgmsg_to_cv2).length = msgs.length := by
  induction msgs with
  | nil => simp
  | cons m ms ih =>
    obtain ⟨f, hf⟩ := Option.isSome_iff_exists.mp (h m (by simp))
    simp [List.filterMap_cons, hf, ih (fun x hx => h x (List.mem_cons_of_mem m hx))]

/-- Surrounding two strings with a common prefix and suffix preserves
distinctness. -/
theorem string_wrap_inj (pre suf s1 s2 : String)
    (h : pre ++ s1 ++ suf = pre ++ s2 ++ suf) : s1 = s2 := by
  have hd : pre.data ++ s1.data ++ suf.data = pre.data ++ s2.data ++ suf.data := by
    have := congrArg String.data h
    simpa [String.data_append] using this
  exact String.ext (List.append_cancel_left (List.append_cancel_right hd))

/-- The `%Y%m%d-%H%M%S` format is injective on valid broken-down times:
distinct instants at one-second granularity give distinct strings. -/
theorem strftime_YmdHMS_inj (t1 t2 : LocalTime) (h1 : t1.Valid) (h2 : t2.Valid)
    (h : strftime_YmdHMS t1 = strftime_YmdHMS t2) : t1 = t2 := by
  obtain ⟨y1, mo1, d1, ho1, mi1, s1⟩ := t1
  obtain ⟨y2, mo2, d2, ho2, mi2, s2⟩ := t2
  simp only [LocalTime.Valid] at h1 h2
  obtain ⟨hy1, _, hmo1, _, hd1, hho1, hmi1, hs1⟩ := h1
  obtain ⟨hy2, _, hmo2, _, hd2, hho2, hmi2, hs2⟩ := h2
  rw [String.ext_iff] at h
  dsimp only [strftime_YmdHMS] at h
  simp only [pad4, pad2, List.cons_append, List.nil_append] at h
  injection h with e1 h
  injection h with e2 h
  injection h with e3 h
  injection h with e4 h
  injection h with e5 h
  injection h with e6 h
  injection h with e7 h
  injection h with e8 h
  injection h with edash h
  injection h with e9 h
  injection h with e10 h
  injection h with e11 h
  injection h with e12 h
  injection h with e13 h
  injection h with e14 h
  have tenpos : (0 : Nat) < 10 := by norm_num
  have n1 := digitChar_inj_lt10 _ (Nat.mod_lt _ tenpos) _ (Nat.mod_lt _ tenpos) e1
  have n2 := digitChar_inj_lt10 _ (Nat.mod_lt _ tenpos) _ (Nat.mod_lt _ tenpos) e2
  have n3 := digitChar_inj_lt10 _ (Nat.mod_lt _ tenpos) _ (Nat.mod_lt _ tenpos) e3
  have n4 := digitChar_inj_lt10 _ (Nat.mod_lt _ tenpos) _ (Nat.mod_lt _ tenpos) e4
  have n5 := digitChar_inj_lt10 _ (Nat.mod_lt _ tenpos) _ (Nat.mod_lt _ tenpos) e5
  have n6 := digitChar_inj_lt10 _ (Nat.mod_lt _ tenpos) _ (Nat.mod_lt _ tenpos) e6
  have n7 := digitChar_inj_lt10 _ (Nat.mod_lt _ tenpos) _ (Nat.mod_lt _ tenpos) e7
  have n8 := digitChar_inj_lt10 _ (Nat.mod_lt _ tenpos) _ (Nat.mod_lt _ tenpos) e8
  have n9 := digitChar_inj_lt10 _ (Nat.mod_lt _ tenpos) _ (Nat.mod_lt _ tenpos) e9
  have n10 := digitChar_inj_lt10 _ (Nat.mod_lt _ tenpos) _ (Nat.mod_lt _ tenpos) e10
  have n11 := digitChar_inj_lt10 _ (Nat.mod_lt _ tenpos) _ (Nat.mod_lt _ tenpos) e11
  have n12 := digitChar_inj_lt10 _ (Nat.mod_lt _ tenpos) _ (Nat.mod_lt _ tenpos) e12
  have n13 := digitChar_inj_lt10 _ (Nat.mod_lt _ tenpos) _ (Nat.mod_lt _ tenpos) e13
  have n14 := digitChar_inj_lt10 _ (Nat.mod_lt _ tenpos) _ (Nat.mod_lt _ tenpos) e14
  simp only [LocalTime.mk.injEq]
  omega

/-! ### Concrete sample data for evaluations -/

/-- Sample decoded frame. -/
def frameA : Frame := { height := 4, width := 6, data := [1, 2, 3] }

/-- Second sample decoded frame. -/
def frameB : Frame := { height := 4, width := 6, data := [7, 8] }

/-- Sample decodable message. -/
def msgA : ImageMsg := { decoded := some frameA }

/-- Second sample decodable message. -/
def msgB : ImageMsg := { decoded := some frameB }

/-- Sample malformed message: `imgmsg_to_cv2` raises on it. -/
def msgBad : ImageMsg := { decoded := none }

/-- Sample save instant. -/
def timeA : LocalTime :=
  { year := 2025, month := 5, day := 21, hour := 12, minute := 0, second := 0 }

/-- Sample save instant one second later. -/
def timeB : LocalTime :=
  { year := 2025, month := 5, day := 21, hour := 12, minute := 0, second := 1 }

/-- Recorder with one buffered frame and no configured filename. -/
def recA : ImageRecorder :=
  { topic_name := "/cam", fps := 8, output_filename := none,
    frames := [frameA], recording := true }

/-- Recorder state after `recA` handles `msgB`. -/
def recAB : ImageRecorder := { recA with frames := recA.frames ++ [frameB] }

/-- Stopped recorder with an empty buffer. -/
def recEmpty : ImageRecorder :=
  { topic_name := "/cam", fps := 8, output_filename := none,
    frames := [], recording := false }

/-- Stopped recorder with a buffered frame and configured filename `clip`. -/
def recNamed : ImageRecorder :=
  { topic_name := "/cam", fps := 8, output_filename := some "clip",
    frames := [frameA], recording := false }

/-- Stopped recorder with a buffered frame and the configured filename `""`. -/
def recEmptyName : ImageRecorder :=
  { topic_name := "/cam", fps := 8, output_filename := some "",
    frames := [frameA], recording := false }

/-! ### Claims -/

/-- C1: a run that delivers `N` validly-decodable messages while the
recording flag is true and then receives the interrupt saves a video whose
frame sequence is exactly the `N` decoded frames, in delivery order, with no
reordering, deduplication or skipping. -/
theorem claim_C1_saved_video_has_all_frames_in_order
    (topicArg : Option String) (fpsArg : Option Int) (outputArg : Option String)
    (msgs : List ImageMsg) (now : LocalTime)
    (hdec : ∀ m ∈ msgs, (imgmsg_to_cv2 m).isSome) (hne : msgs ≠ []) :
    Option.map VideoFile.writtenFrames (runMain topicArg fpsArg outputArg msgs now).video
        = some (msgs.filterMap imgmsg_to_cv2) ∧
    (msgs.filterMap imgmsg_to_cv2).length = msgs.length := by
  refine ⟨?_, length_filterMap_decode msgs hdec⟩
  obtain ⟨m, ms, rfl⟩ := List.exists_cons_of_ne_nil hne
  obtain ⟨f, hf⟩ := Option.isSome_iff_exists.mp (hdec m (by simp))
  simp only [runMain, main_interrupt]
  rw [spin_recording_frames (m :: ms) _ rfl hdec]
  simp [ImageRecorder.save_video, ImageRecorder.init, List.filterMap_cons, hf]

/-- C1 witness: two decodable messages produce a two-frame video in delivery
order. -/
theorem claim_C1_witness :
    (∀ m ∈ ([msgA, msgB] : List ImageMsg), (imgmsg_to_cv2 m).isSome) ∧
    ([msgA, msgB] : List ImageMsg) ≠ [] ∧
    (Option.map VideoFile.writtenFrames
        (runMain none (some 8) none [msgA, msgB] timeA).video
          = some ([msgA, msgB].filterMap imgmsg_to_cv2) ∧
      ([msgA, msgB].filterMap imgmsg_to_cv2).length = [msgA, msgB].length) :=
  ⟨by decide, by decide,
   claim_C1_saved_video_has_all_frames_in_order none (some 8) none
     [msgA, msgB] timeA (by decide) (by decide)⟩

/-- C2: saving with an empty frame sequence logs an error, creates no file,
opens no encoder and leaves the session state unchanged. -/
theorem claim_C2_empty_buffer_save_noop (r : ImageRecorder) (now : LocalTime)
    (h : r.frames = []) :
    r.save_video now =
      { state := r
        video := none
        logs := [{ level := LogLevel.error, text := "No frames recorded!" }] } :=
  save_video_empty_buffer r now h

/-- C2 witness: saving the empty stopped recorder only logs the error. -/
theorem claim_C2_witness :
    recEmpty.frames = [] ∧
    recEmpty.save_video timeA =
      { state := recEmpty
        video := none
        logs := [{ level := LogLevel.error, text := "No frames recorded!" }] } :=
  ⟨rfl, claim_C2_empty_buffer_save_noop recEmpty timeA rfl⟩

/-- C3 counterexample: the empty string is an explicitly configured output
filename (`-o ''`) that does not end in `.mp4`, so the claim predicts the
saved path `".mp4"`; but `if self.output_filename:` is false for the empty
string, so the code takes the timestamp branch instead. -/
theorem claim_C3_counterexample_empty_name :
    Option.map VideoFile.path ((recEmptyName.save_video timeA).video)
        = some "camera_record_20250521-120000.mp4" ∧
    ¬ Option.map VideoFile.path ((recEmptyName.save_video timeA).video)
        = some ".mp4" := by
  constructor
  · decide
  · decide

/-- C3 (amended): for every explicitly configured non-empty output filename,
the saved path is the configured name with `.mp4` appended when missing and
unchanged when already present. -/
theorem claim_C3_explicit_name_gets_mp4_suffix (r : ImageRecorder)
    (now : LocalTime) (name : String) (hn : r.output_filename = some name)
    (hne : name ≠ "") (hf : r.frames ≠ []) :
    Option.map VideoFile.path (r.save_video now).video
      = some (if name.endsWith ".mp4" then name else name ++ ".mp4") :=
  save_video_explicit_path r now name hf hn hne

/-- C3 witness: the configured name `clip` yields the path `clip.mp4`. -/
theorem claim_C3_witness :
    recNamed.output_filename = some "clip" ∧ "clip" ≠ "" ∧ recNamed.frames ≠ [] ∧
    Option.map VideoFile.path (recNamed.save_video timeA).video
      = some (if "clip".endsWith ".mp4" then "clip" else "clip" ++ ".mp4") :=
  ⟨rfl, by decide, by decide,
   claim_C3_explicit_name_gets_mp4_suffix recNamed timeA "clip" rfl
     (by decide) (by decide)⟩

/-- C4: after a save on a non-empty buffer, the frame sequence is cleared and
every other session field is kept, returning the session to an empty,
re-recordable state. -/
theorem claim_C4_save_clears_frame_sequence (r : ImageRecorder)
    (now : LocalTime) (h : r.frames ≠ []) :
    (r.save_video now).state = { r with frames := [] } :=
  save_video_state_clears r now h

/-- C4 witness: saving `recA` empties its buffer. -/
theorem claim_C4_witness :
    recA.frames ≠ [] ∧ (recA.save_video timeA).state = { recA with frames := [] } :=
  ⟨by decide, claim_C4_save_clears_frame_sequence recA timeA (by decide)⟩

/-- C5: when the recording flag is false the callback is a no-op — the
message is dropped without being decoded and the whole state is returned
unchanged (even for a message whose decoding would fail). -/
theorem claim_C5_callback_noop_when_not_recording (r : ImageRecorder)
    (msg : ImageMsg) (h : r.recording = false) :
    r.image_callback msg = Except.ok r := by
  simp [ImageRecorder.image_callback, h]

/-- C5 witness: the stopped recorder drops even an undecodable message. -/
theorem claim_C5_witness :
    recEmpty.recording = false ∧ recEmpty.image_callback msgBad = Except.ok recEmpty :=
  ⟨rfl, claim_C5_callback_noop_when_not_recording recEmpty msgBad rfl⟩

/-- C6: every transition the program performs from a state with the
recording flag true leaves the old frame sequence intact as an initial
segment of the new one: existing frames are neither removed nor reordered. -/
theorem claim_C6_append_only_while_recording (r r2 : ImageRecorder)
    (h : r.recording = true) (hs : Step r r2) :
    r2.frames.take r.frames.length = r.frames := by
  cases hs with
  | deliver x2 msg hcb =>
    unfold ImageRecorder.image_callback at hcb
    rw [h] at hcb
    simp only [Bool.not_true, Bool.false_eq_true, if_false] at hcb
    cases hd : imgmsg_to_cv2 msg with
    | none =>
      rw [hd] at hcb
      exact absurd hcb (by simp)
    | some f =>
      rw [hd] at hcb
      simp only [Except.ok.injEq] at hcb
      rw [← hcb]
      simp [List.take_left]
  | deliverFail msg hfail => exact List.take_length r.frames
  | interruptStop => exact List.take_length r.frames
  | save now hrec =>
    rw [h] at hrec
    exact absurd hrec (by simp)

/-- C6 witness: delivering `msgB` to `recA` appends and keeps the old buffer
as an initial segment. -/
theorem claim_C6_witness :
    recA.recording = true ∧ recAB.frames.take recA.frames.length = recA.frames :=
  ⟨rfl, claim_C6_append_only_while_recording recA recAB rfl
    (Step.deliver recA recAB msgB rfl)⟩

/-- C7: with no configured output filename and a non-empty buffer, the saved
path follows the `camera_record_<YYYYMMDD-HHMMSS>.mp4` pattern, and two saves
at valid local times that differ at one-second granularity get distinct
paths. -/
theorem claim_C7_timestamp_names_distinct (r1 r2 : ImageRecorder)
    (ta tb : LocalTime) (h1 : r1.output_filename = none)
    (h2 : r2.output_filename = none) (hf1 : r1.frames ≠ []) (hf2 : r2.frames ≠ [])
    (hv1 : ta.Valid) (hv2 : tb.Valid) (hne : ta ≠ tb) :
    Option.map VideoFile.path ((r1.save_video ta).video)
        = some ("camera_record_" ++ strftime_YmdHMS ta ++ ".mp4") ∧
    Option.map VideoFile.path ((r2.save_video tb).video)
        = some ("camera_record_" ++ strftime_YmdHMS tb ++ ".mp4") ∧
    Option.map VideoFile.path ((r1.save_video ta).video)
        ≠ Option.map VideoFile.path ((r2.save_video tb).video) := by
  have p1 := save_video_timestamp_path r1 ta hf1 (by rw [h1]; rfl)
  have p2 := save_video_timestamp_path r2 tb hf2 (by rw [h2]; rfl)
  refine ⟨p1, p2, ?_⟩
  rw [p1, p2]
  intro hcontra
  simp only [Option.some.injEq] at hcontra
  exact hne (strftime_YmdHMS_inj ta tb hv1 hv2 (string_wrap_inj _ _ _ _ hcontra))

/-- C7 witness: saves one second apart give distinct timestamped paths. -/
theorem claim_C7_witness :
    recA.output_filename = none ∧ recA.frames ≠ [] ∧
    timeA.Valid ∧ timeB.Valid ∧ timeA ≠ timeB ∧
    (Option.map VideoFile.path ((recA.save_video timeA).video)
        = some ("camera_record_" ++ strftime_YmdHMS timeA ++ ".mp4") ∧
      Option.map VideoFile.path ((recA.save_video timeB).video)
        = some ("camera_record_" ++ strftime_YmdHMS timeB ++ ".mp4") ∧
      Option.map VideoFile.path ((recA.save_video timeA).video)
        ≠ Option.map VideoFile.path ((recA.save_video timeB).video)) :=
  ⟨rfl, by decide, by decide, by decide, by decide,
   claim_C7_timestamp_names_distinct recA recA timeA timeB rfl rfl
     (by decide) (by decide) (by decide) (by decide) (by decide)⟩

/-- C8: the interrupt handler clears the recording flag and then performs one
synchronous `save_video` call on the flag-cleared state, and the process
exits with status 0 whether or not that save produced a file. -/
theorem claim_C8_interrupt_saves_once_then_exits_zero (r : ImageRecorder)
    (now : LocalTime) :
    (main_interrupt r now).exitCode = 0 ∧
    ({ r with recording := false } : ImageRecorder).recording = false ∧
    (main_interrupt r now).video
        = (({ r with recording := false } : ImageRecorder).save_video now).video ∧
    (main_interrupt r now).finalState
        = (({ r with recording := false } : ImageRecorder).save_video now).state ∧
    (main_interrupt r now).finalState.recording = false := by
  refine ⟨rfl, rfl, rfl, rfl, ?_⟩
  by_cases hf : ({ r with recording := false } : ImageRecorder).frames = []
  · have he := save_video_empty_buffer _ now hf
    simp [main_interrupt, he]
  · have hc := save_video_state_clears _ now hf
    simp [main_interrupt, hc]

/-- C9: a second save right after a save of a non-empty buffer takes the
empty-buffer branch: it logs the error, produces no second file and leaves
the state unchanged. -/
theorem claim_C9_second_save_empty_branch (r : ImageRecorder)
    (ta tb : LocalTime) (h : r.frames ≠ []) :
    ((r.save_video ta).state).save_video tb =
      { state := (r.save_video ta).state
        video := none
        logs := [{ level := LogLevel.error, text := "No frames recorded!" }] } := by
  have h1 := save_video_state_clears r ta h
  exact save_video_empty_buffer _ tb (by rw [h1])

/-- C9 witness: the second save on `recA` is a logged no-op. -/
theorem claim_C9_witness :
    recA.frames ≠ [] ∧
    ((recA.save_video timeA).state).save_video timeB =
      { state := (recA.save_video timeA).state
        video := none
        logs := [{ level := LogLevel.error, text := "No frames recorded!" }] } :=
  ⟨by decide, claim_C9_second_save_empty_branch recA timeA timeB (by decide)⟩

/-- C10: no stage validates the frame rate — argument parsing accepts every
integer, the initializer stores it unchanged, and a save with a non-empty
buffer passes it to the video encoder as given, zero and negative values
included. -/
theorem claim_C10_fps_unvalidated_passthrough (fps : Int)
    (topicArg outputArg : Option String) (fr : List Frame) (now : LocalTime)
    (hf : fr ≠ []) :
    (parse_args topicArg (some fps) outputArg).fps = fps ∧
    (ImageRecorder.init (parse_args topicArg (some fps) outputArg).topic
        (parse_args topicArg (some fps) outputArg).fps
        (parse_args topicArg (some fps) outputArg).output).fps = fps ∧
    Option.map VideoFile.fps
      (({ ImageRecorder.init (parse_args topicArg (some fps) outputArg).topic
            (parse_args topicArg (some fps) outputArg).fps
            (parse_args topicArg (some fps) outputArg).output
            with frames := fr } : ImageRecorder).save_video now).video
      = some fps := by
  refine ⟨rfl, rfl, ?_⟩
  exact save_video_fps _ now hf

/-- C10 witness: the negative frame rate `-5` flows through unmodified. -/
theorem claim_C10_witness :
    ([frameA] : List Frame) ≠ [] ∧
    ((parse_args none (some (-5)) none).fps = -5 ∧
      (ImageRecorder.init (parse_args none (some (-5)) none).topic
          (parse_args none (some (-5)) none).fps
          (parse_args none (some (-5)) none).output).fps = -5 ∧
      Option.map VideoFile.fps
        (({ ImageRecorder.init (parse_args none (some (-5)) none).topic
              (parse_args none (some (-5)) none).fps
              (parse_args none (some (-5)) none).output
              with frames := [frameA] } : ImageRecorder).save_video timeA).video
        = some (-5)) :=
  ⟨by decide,
   claim_C10_fps_unvalidated_passthrough (-5) none none [frameA] timeA (by decide)⟩
